import Mathlib

/-!
Shallow embedding of the "bull market agent" core of the repository
(`src/modules/bull_market_agent/`): domain value objects and entities
(`domain/value_objects.py`, `domain/entities.py`), the time-sliced trading
strategies (`strategies.py`), the market-scan service
(`domain/services/bull_market_analyzer.py`), the scan use case
(`application/use_cases/scan_market_use_case.py`) and the backtest engine
with its performance analyzer (`backtesting.py`).

Conventions of the embedding:
* Python floats are embedded as `ℚ` (the arithmetic the claims exercise is
  exact on the inputs involved); Python ints as `ℤ`.
* Wall-clock instants (`datetime.now()`) are passed in explicitly: a time of
  day is a `ℚ` number of seconds since midnight, a calendar day is a `ℤ`
  day number whose weekday is `d % 7` with day `0` a Monday.
* Python exceptions are embedded as `Except PyErr`; a `try/except` block
  that swallows the error becomes a `match` that restores the non-error
  continuation.  Division by zero raises in Python; where a claim does not
  exercise that path the Lean totalized `/` (yielding `0`) is used and noted.
* Duck-typed collaborators (data provider, strategy objects) are embedded
  as explicit function arguments / records of functions.
* `dict`s keyed by strings are embedded as insertion-ordered association
  lists, with update-in-place, append-on-new-key and delete helpers.
* Logging (`logger.*`, `print`) and notification side effects are dropped:
  they do not affect any returned value.
-/

namespace AiAgentsStock

/-- Python runtime errors that the embedded code can raise. -/
inductive PyErr where
  /-- `raise ValueError(msg)` -/
  | valueError (msg : String)
  /-- attribute access on an object that has no such attribute -/
  | attributeError (attr : String)
  /-- division by zero -/
  | zeroDivisionError
  deriving Repr, DecidableEq

/-- `SignalAction` enum from `domain/value_objects.py`. -/
inductive SignalAction where
  | BUY | SELL | HOLD | STOP_LOSS | TAKE_PROFIT
  deriving Repr, DecidableEq

/-- The `.value` string of each `SignalAction` enum member. -/
def SignalAction.value : SignalAction → String
  | .BUY => "买入"
  | .SELL => "卖出"
  | .HOLD => "持有"
  | .STOP_LOSS => "止损"
  | .TAKE_PROFIT => "止盈"

/-- `RiskLevel` enum from `domain/value_objects.py`. -/
inductive RiskLevel where
  | LOW | MEDIUM | HIGH
  deriving Repr, DecidableEq

/-- Stand-in for Python's float formatting inside f-strings.  No claim
depends on the text of a formatted number, only on its presence inside a
string, so an exact rational rendering is used. -/
def qstr (q : ℚ) : String := toString q.num ++ "/" ++ toString q.den

/-- Python `int(x)` applied to a float: truncation toward zero. -/
def pyInt (q : ℚ) : ℤ := if 0 ≤ q then ⌊q⌋ else -⌊-q⌋

/-- Lookup in an insertion-ordered association list (Python `d[k]` /
`k in d`). -/
def alookup {α : Type} : List (String × α) → String → Option α
  | [], _ => none
  | (k, v) :: rest, key => if k = key then some v else alookup rest key

/-- `d[k] = v` on a Python dict: replaces in place when the key exists,
appends at the end otherwise (dicts preserve insertion order). -/
def aset {α : Type} : List (String × α) → String → α → List (String × α)
  | [], key, v => [(key, v)]
  | (k, w) :: rest, key, v =>
      if k = key then (k, v) :: rest else (k, w) :: aset rest key v

/-- `del d[k]` on a Python dict. -/
def aerase {α : Type} : List (String × α) → String → List (String × α)
  | [], _ => []
  | (k, w) :: rest, key => if k = key then rest else (k, w) :: aerase rest key

/-- `MarketData` frozen dataclass from `domain/value_objects.py`.
`additional_data : Dict[str, Any]` is only ever read through
`.get('avg_volume', default)`-style numeric lookups, so it is embedded as a
string-keyed association list of rationals. -/
structure MarketData where
  symbol : String
  name : String
  price : ℚ
  change_pct : ℚ
  volume : ℤ
  amount : ℚ
  sector : String
  timestamp : ℚ
  additional_data : List (String × ℚ) := []
  deriving Repr, DecidableEq

/-- Python `d.get(key, default)`. -/
def pyGetD (d : List (String × ℚ)) (key : String) (default : ℚ) : ℚ :=
  match alookup d key with
  | some v => v
  | none => default

/-- `AnalysisConfig` frozen dataclass from `domain/value_objects.py`
(field defaults included; `__post_init__` validation is the separate
predicate `configValid`). -/
structure AnalysisConfig where
  sectors : List String := ["BK0917"]
  confidence_threshold : ℚ := 80
  max_position_size : ℚ := 1/10
  enable_parallel : Bool := true
  max_workers : ℤ := 8
  analysis_timeout : ℤ := 15
  enable_caching : Bool := true
  cache_ttl : ℤ := 300
  deriving Repr, DecidableEq

/-- `AnalysisConfig.__post_init__`: raises unless
`0 < confidence_threshold <= 100` and `0 < max_position_size <= 1`. -/
def configValid (c : AnalysisConfig) : Prop :=
  (0 < c.confidence_threshold ∧ c.confidence_threshold ≤ 100) ∧
    (0 < c.max_position_size ∧ c.max_position_size ≤ 1)

instance (c : AnalysisConfig) : Decidable (configValid c) := by
  unfold configValid; infer_instance

/-- `TradingSignal` entity from `domain/entities.py` (the dataclass
fields; construction with validation is `mkTradingSignal`). -/
structure TradingSignal where
  symbol : String
  name : String
  sector : String
  action : SignalAction
  confidence : ℚ
  price : ℚ
  reason : String
  timestamp : ℚ
  detailed_reasons : List String := []
  expected_profit_scenarios : List (String × String) := []
  risk_level : RiskLevel := RiskLevel.MEDIUM
  position_size_pct : ℚ := 0
  stop_loss_plan : String := ""
  take_profit_plan : String := ""
  market_condition : String := ""
  deriving Repr, DecidableEq

/-- `TradingSignal.__post_init__`: raises `ValueError` unless
`0 <= confidence <= 100` and `price > 0`; otherwise the constructed
instance is returned. -/
def mkTradingSignal (s : TradingSignal) : Except PyErr TradingSignal :=
  if ¬(0 ≤ s.confidence ∧ s.confidence ≤ 100) then
    .error (.valueError "置信度必须在0-100之间")
  else if s.price ≤ 0 then
    .error (.valueError "价格必须大于0")
  else
    .ok s

/-- One value of the per-symbol position `dict` held in
`Portfolio.positions` (`domain/entities.py`).  `entry_date` / `last_update`
are the wall-clock stamps written by `datetime.now()`. -/
structure PositionInfo where
  quantity : ℤ
  avg_cost : ℚ
  total_cost : ℚ
  entry_date : ℚ
  last_update : ℚ
  deriving Repr, DecidableEq

/-- `Portfolio` entity from `domain/entities.py`. -/
structure Portfolio where
  cash : ℚ := 100000
  positions : List (String × PositionInfo) := []
  total_value : ℚ := 100000
  daily_pnl : ℚ := 0
  total_pnl : ℚ := 0
  deriving Repr, DecidableEq

/-- `Portfolio.add_position` (`domain/entities.py` lines 60-82).  `now` is
the value of `datetime.now()` during the call.  The method never touches
`cash` and performs no funds check.  When the symbol already has a
position the new average cost divides by the combined quantity; Python
raises `ZeroDivisionError` when that quantity is `0`, embedded as the
explicit guard (the division happens before any mutation). -/
def Portfolio.add_position (p : Portfolio) (now : ℚ) (symbol : String)
    (quantity : ℤ) (price commission : ℚ) : Except PyErr Portfolio :=
  match alookup p.positions symbol with
  | some existing =>
      let total_quantity := existing.quantity + quantity
      let total_cost := existing.total_cost + quantity * price + commission
      if total_quantity = 0 then .error .zeroDivisionError
      else
        let avg_cost := total_cost / total_quantity
        let updated : PositionInfo :=
          { existing with
            quantity := total_quantity
            avg_cost := avg_cost
            total_cost := total_cost
            last_update := now }
        .ok { p with positions := aset p.positions symbol updated }
  | none =>
      let fresh : PositionInfo :=
        { quantity := quantity
          avg_cost := price
          total_cost := quantity * price + commission
          entry_date := now
          last_update := now }
      .ok { p with positions := aset p.positions symbol fresh }

/-- `Portfolio.remove_position` (`domain/entities.py` lines 84-107).
Raises `ValueError` when the symbol is absent or the quantity exceeds the
held quantity — in both cases before any mutation.  On success returns the
updated portfolio and the realized profit/loss
`quantity*price - quantity*avg_cost - commission`; the position is deleted
when its quantity reaches exactly `0`. -/
def Portfolio.remove_position (p : Portfolio) (now : ℚ) (symbol : String)
    (quantity : ℤ) (price commission : ℚ) :
    Except PyErr (Portfolio × ℚ) :=
  match alookup p.positions symbol with
  | none => .error (.valueError ("没有找到股票 " ++ symbol ++ " 的持仓"))
  | some position =>
      if position.quantity < quantity then
        .error (.valueError ("卖出数量 " ++ toString quantity ++
          " 超过持仓数量 " ++ toString position.quantity))
      else
        let sell_amount := quantity * price
        let cost_basis := quantity * position.avg_cost
        let profit_loss := sell_amount - cost_basis - commission
        let updated : PositionInfo :=
          { position with
            quantity := position.quantity - quantity
            total_cost := position.total_cost - cost_basis
            last_update := now }
        let positions' :=
          if updated.quantity = 0 then aerase p.positions symbol
          else aset p.positions symbol updated
        .ok ({ p with positions := positions' }, profit_loss)

/-- `TradeRecord` entity from `domain/entities.py`. -/
structure TradeRecord where
  symbol : String
  name : String
  action : SignalAction
  quantity : ℤ
  price : ℚ
  amount : ℚ
  commission : ℚ
  timestamp : ℚ
  reason : String
  confidence : ℚ
  cost_price : Option ℚ := none
  profit_loss : ℚ := 0
  profit_loss_pct : ℚ := 0
  hold_days : ℤ := 0
  trade_summary : String := ""
  lessons_learned : String := ""
  deriving Repr, DecidableEq

/-- Seconds since midnight for a clock time `h:m`. -/
def hm (h m : ℕ) : ℚ := (h * 3600 + m * 60 : ℕ)

/-- `BaseStrategy._get_time_slot` (`strategies.py` lines 45-59): the four
windows are tried in dict insertion order with *inclusive* bounds on both
ends (`start_time <= current_t <= end_time`); the first containing window
wins and everything else is `'non_trading'`.  `t` is the time of day in
seconds. -/
def getTimeSlot (t : ℚ) : String :=
  if hm 9 15 ≤ t ∧ t ≤ hm 9 30 then "early_morning"
  else if hm 9 30 ≤ t ∧ t ≤ hm 11 30 then "morning_session"
  else if hm 13 0 ≤ t ∧ t ≤ hm 14 30 then "afternoon_session"
  else if hm 14 30 ≤ t ∧ t ≤ hm 15 0 then "late_afternoon"
  else "non_trading"

/-- `BaseStrategy._calculate_position_size` (`strategies.py` lines 61-65):
`config.max_position_size * (signal.confidence / 100)`. -/
def calculatePositionSize (signal : TradingSignal) (config : AnalysisConfig) : ℚ :=
  config.max_position_size * (signal.confidence / 100)

/-- `TPlusOneStrategy._early_morning_strategy` (`strategies.py` lines
110-136): when `change_pct < -2.0` it constructs and returns a SELL
signal (validated by `TradingSignal.__post_init__`, so it raises when the
snapshot price is not positive); otherwise `None`.  The method receives no
portfolio and consults no holdings.  `now` is the `datetime.now()` value
used for the signal timestamp. -/
def earlyMorningStrategy (now : ℚ) (md : MarketData) (_config : AnalysisConfig) :
    Except PyErr (Option TradingSignal) :=
  if md.change_pct < -2 then
    (mkTradingSignal
      { symbol := md.symbol
        name := md.name
        sector := md.sector
        action := SignalAction.SELL
        confidence := 85
        price := md.price
        reason := "竞价低开+缩量，主力出货迹象"
        timestamp := now
        detailed_reasons :=
          ["早盘竞价策略：收割者模式，只卖不买",
           "竞价低开超过2%，可能存在重大利空",
           "成交量萎缩，主力出货迹象明显"]
        risk_level := RiskLevel.LOW
        stop_loss_plan := "立即执行，无需等待"
        take_profit_plan := "不适用"
        market_condition := "早盘竞价阶段，风险较高" }).map some
  else .ok none

/-- `TPlusOneStrategy._intraday_trading_strategy` (`strategies.py` lines
138-164).  When the entry condition holds, the `position_size_pct`
argument is computed by constructing a dummy `TradingSignal` with
`price=0`, whose `__post_init__` raises `ValueError` — so this branch
always raises before the outer signal can be built. -/
def intradayTradingStrategy (now : ℚ) (md : MarketData) (config : AnalysisConfig) :
    Except PyErr (Option TradingSignal) :=
  if md.change_pct > 3 ∧
      (md.volume : ℚ) > pyGetD md.additional_data "avg_volume" 0 * (3/2) then
    match mkTradingSignal
        { symbol := "", name := "", sector := "", action := SignalAction.HOLD
          confidence := 75, price := 0, reason := "", timestamp := now } with
    | .error e => .error e
    | .ok dummy =>
        (mkTradingSignal
          { symbol := md.symbol
            name := md.name
            sector := md.sector
            action := SignalAction.HOLD
            confidence := 75
            price := md.price
            reason := "盘中放量上涨，保持观望"
            timestamp := now
            detailed_reasons :=
              ["盘中趋势守门员模式",
               "涨幅达到" ++ qstr md.change_pct ++ "%，超出正常范围",
               "成交量放大" ++
                 qstr ((md.volume : ℚ) / pyGetD md.additional_data "avg_volume" 1) ++
                 "倍"]
            risk_level := RiskLevel.MEDIUM
            position_size_pct := calculatePositionSize dummy config
            stop_loss_plan := "跌破" ++ qstr (md.price * (97/100)) ++ "元止损"
            take_profit_plan := "涨幅达到" ++ qstr (md.price * (105/100)) ++ "元考虑减仓"
            market_condition := "盘中交易时段，流动性较好" }).map some
  else .ok none

/-- `TPlusOneStrategy._late_afternoon_strategy` (`strategies.py` lines
166-199).  As in the intraday branch, the `position_size_pct` argument
builds a dummy `TradingSignal` with `price=0`, so whenever
`change_pct < -2.0` the method raises `ValueError` instead of returning
the BUY signal. -/
def lateAfternoonStrategy (now : ℚ) (md : MarketData) (config : AnalysisConfig) :
    Except PyErr (Option TradingSignal) :=
  if md.change_pct < -2 then
    match mkTradingSignal
        { symbol := "", name := "", sector := "", action := SignalAction.BUY
          confidence := 82, price := 0, reason := "", timestamp := now } with
    | .error e => .error e
    | .ok dummy =>
        (mkTradingSignal
          { symbol := md.symbol
            name := md.name
            sector := md.sector
            action := SignalAction.BUY
            confidence := 82
            price := md.price
            reason := "首阴反包模式，大盘跌它不跌"
            timestamp := now
            detailed_reasons :=
              ["尾盘黄金30分钟策略",
               "收盘前跌幅" ++ qstr md.change_pct ++ "%，存在反弹机会",
               "T+1策略，明天才能卖出，风险相对可控"]
            expected_profit_scenarios :=
              [("乐观", "+" ++ qstr (md.price * (108/100)) ++ "元 (+8%)"),
               ("中性", "+" ++ qstr (md.price * (105/100)) ++ "元 (+5%)"),
               ("保守", "+" ++ qstr (md.price * (102/100)) ++ "元 (+2%)")]
            risk_level := RiskLevel.MEDIUM
            position_size_pct := calculatePositionSize dummy config
            stop_loss_plan := "跌破" ++ qstr (md.price * (95/100)) ++ "元止损"
            take_profit_plan := "涨幅达到" ++ qstr (md.price * (110/100)) ++ "元止盈"
            market_condition := "尾盘交易时段，适合低风险布局" }).map some
  else .ok none

/-- `TPlusOneStrategy.analyze_market_data` (`strategies.py` lines 74-108):
classifies `datetime.now()` (here the explicit `now`, seconds of day) into
a time slot and dispatches; `'non_trading'` yields `None`. -/
def tPlusOneAnalyzeMarketData (now : ℚ) (md : MarketData)
    (config : AnalysisConfig) : Except PyErr (Option TradingSignal) :=
  let time_slot := getTimeSlot now
  if time_slot = "non_trading" then .ok none
  else if time_slot = "early_morning" then earlyMorningStrategy now md config
  else if time_slot = "morning_session" ∨ time_slot = "afternoon_session" then
    intradayTradingStrategy now md config
  else if time_slot = "late_afternoon" then lateAfternoonStrategy now md config
  else .ok none

/-- `TPlusOneStrategy.should_enter_position` (`strategies.py` lines
201-215). -/
def tPlusOneShouldEnter (signal : TradingSignal) (portfolio : Portfolio) : Bool :=
  if signal.action ≠ SignalAction.BUY then false
  else if portfolio.cash * signal.position_size_pct < signal.price * 100 then false
  else if (alookup portfolio.positions signal.symbol).isSome then false
  else true

/-- `TPlusOneStrategy.should_exit_position` (`strategies.py` lines
217-234): sell on `profit_pct >= 8` or `profit_pct <= -5` where
`profit_pct = (current_price/avg_cost - 1) * 100` (totalized division —
the claims never exercise a zero average cost). -/
def tPlusOneShouldExit (symbol : String) (portfolio : Portfolio)
    (current_price : ℚ) : Option SignalAction :=
  match alookup portfolio.positions symbol with
  | none => none
  | some position =>
      let profit_pct := (current_price / position.avg_cost - 1) * 100
      if profit_pct ≥ 8 then some SignalAction.SELL
      else if profit_pct ≤ -5 then some SignalAction.SELL
      else none

/-- A duck-typed `TradingStrategy` object as the engine and the analyzer
see it (`core.py` `TradingStrategy` ABC): a record of the three methods.
`analyze` already closes over the wall clock the concrete strategy reads
via `datetime.now()`. -/
structure StrategyB where
  analyze : MarketData → AnalysisConfig → Except PyErr (Option TradingSignal)
  shouldEnter : TradingSignal → Portfolio → Bool
  shouldExit : String → Portfolio → ℚ → Option SignalAction

/-- The `TPlusOneStrategy` object, at wall-clock time of day `now`. -/
def tPlusOneStrategy (now : ℚ) : StrategyB :=
  { analyze := tPlusOneAnalyzeMarketData now
    shouldEnter := tPlusOneShouldEnter
    shouldExit := tPlusOneShouldExit }

/-- `BullMarketAnalyzer.analyze_single_stock`
(`domain/services/bull_market_analyzer.py` lines 153-178): try each
strategy in order, first non-`None` signal wins; no strategy yields a
signal gives `None`.  The method has no `try/except`, so a strategy
exception propagates to the caller. -/
def analyzeSingleStock (strategies : List StrategyB) (config : AnalysisConfig)
    (md : MarketData) : Except PyErr (Option TradingSignal) :=
  match strategies with
  | [] => .ok none
  | strat :: rest =>
      match strat.analyze md config with
      | .error e => .error e
      | .ok (some signal) => .ok (some signal)
      | .ok none => analyzeSingleStock rest config md

/-- The inner per-stock loop of `BullMarketAnalyzer.scan_market` for one
sector's data, running inside the sector's `try`: signals append to the
shared accumulator, and an exception mid-sector keeps the signals appended
so far (the `except` swallows it and moves to the next sector). -/
def scanSectorStocks (strategies : List StrategyB) (config : AnalysisConfig) :
    List MarketData → List TradingSignal → List TradingSignal
  | [], acc => acc
  | md :: rest, acc =>
      match analyzeSingleStock strategies config md with
      | .error _ => acc
      | .ok none => scanSectorStocks strategies config rest acc
      | .ok (some signal) => scanSectorStocks strategies config rest (acc ++ [signal])

/-- The sector loop of `scan_market`: `get_sector_stocks` failures
(`.error`) are swallowed by the per-sector `except` and the loop
continues. -/
def scanSectors (provider : String → Except PyErr (List MarketData))
    (strategies : List StrategyB) (config : AnalysisConfig) :
    List String → List TradingSignal → List TradingSignal
  | [], acc => acc
  | sector :: rest, acc =>
      match provider sector with
      | .error _ => scanSectors provider strategies config rest acc
      | .ok sector_data =>
          scanSectors provider strategies config rest
            (scanSectorStocks strategies config sector_data acc)

/-- `BullMarketAnalyzer.scan_market`
(`domain/services/bull_market_analyzer.py` lines 63-112).  `provider` is
the duck-typed `data_provider` (`none` embeds the unconfigured-provider
early return of `[]`).  After the sector loop the signals are filtered by
`s.confidence >= config.confidence_threshold`; notification is a dropped
side effect. -/
def scanMarket (config : AnalysisConfig)
    (provider : Option (String → Except PyErr (List MarketData)))
    (strategies : List StrategyB) : List TradingSignal :=
  match provider with
  | none => []
  | some get_sector_stocks =>
      let signals := scanSectors get_sector_stocks strategies config config.sectors []
      signals.filter (fun s => config.confidence_threshold ≤ s.confidence)

/-- The dedup key of `ScanMarketUseCase._process_signals`
(`scan_market_use_case.py` line 114): `f"{signal.symbol}_{signal.action.value}"`. -/
def signalKey (s : TradingSignal) : String :=
  s.symbol ++ "_" ++ s.action.value

/-- The dedup loop of `_process_signals`: walk the sorted list, keep the
first signal for each not-yet-seen key (the insertion-ordered `dict`
`unique_signals`), drop later ones. -/
def dedupByKey : List TradingSignal → List String → List TradingSignal
  | [], _ => []
  | s :: rest, seen =>
      if signalKey s ∈ seen then dedupByKey rest seen
      else s :: dedupByKey rest (signalKey s :: seen)

/-- `ScanMarketUseCase._process_signals` (`scan_market_use_case.py` lines
95-118): stable sort by confidence descending (`sorted(...,
key=confidence, reverse=True)`), then first-seen dedup per
`symbol_action.value` key; `dict` preserves insertion order so
`list(unique_signals.values())` is the kept signals in sorted order. -/
def processSignals (signals : List TradingSignal) : List TradingSignal :=
  let sorted_signals :=
    signals.mergeSort (fun a b => decide (b.confidence ≤ a.confidence))
  dedupByKey sorted_signals []

/-- `ScanMarketUseCase.execute` (`scan_market_use_case.py` lines 35-54):
scan, then post-process (neither raises in the embedding, so the
`except` fallback to `[]` is dead). -/
def scanMarketUseCaseExecute (config : AnalysisConfig)
    (provider : Option (String → Except PyErr (List MarketData)))
    (strategies : List StrategyB) : List TradingSignal :=
  processSignals (scanMarket config provider strategies)

/-- `RiskMetrics` frozen dataclass from `domain/value_objects.py` (field
defaults are the all-zero metrics). -/
structure RiskMetrics where
  max_drawdown : ℚ := 0
  sharpe_ratio : ℚ := 0
  volatility : ℚ := 0
  win_rate : ℚ := 0
  profit_loss_ratio : ℚ := 0
  calmar_ratio : ℚ := 0
  sortino_ratio : ℚ := 0
  max_consecutive_losses : ℤ := 0
  recovery_factor : ℚ := 0
  deriving Repr, DecidableEq

/-- The dict returned by `PerformanceAnalyzer.analyze_performance`
(`backtesting.py` lines 24-73), with the dict keys as fields. -/
structure PerfAnalysis where
  total_return : ℚ := 0
  total_return_pct : ℚ := 0
  win_rate : ℚ := 0
  total_trades : ℤ := 0
  profitable_trades : ℤ := 0
  losing_trades : ℤ := 0
  avg_hold_days : ℚ := 0
  max_profit : ℚ := 0
  max_loss : ℚ := 0
  avg_profit_per_trade : ℚ := 0
  deriving Repr, DecidableEq

/-- Python `max(list)` for a nonempty list (`0` stands in for the empty
case, which the call sites guard). -/
def listMax : List ℚ → ℚ
  | [] => 0
  | h :: t => t.foldl max h

/-- Python `min(list)` for a nonempty list. -/
def listMin : List ℚ → ℚ
  | [] => 0
  | h :: t => t.foldl min h

/-- `PerformanceAnalyzer.analyze_performance` (`backtesting.py` lines
24-73).  Closed trades are those with `action == SELL`; all ratios with an
empty denominator are guarded by the source's `if ... else 0`, except
`total_return_pct` whose division by `initial_capital` is totalized (the
claims never pass `initial_capital = 0`). -/
def analyzePerformance (trade_records : List TradeRecord)
    (initial_capital final_capital : ℚ) : PerfAnalysis :=
  if trade_records.isEmpty then {}
  else
    let closed_trades := trade_records.filter (fun t => t.action = SignalAction.SELL)
    let profitable_trades := closed_trades.filter (fun t => 0 < t.profit_loss)
    let losing_trades := closed_trades.filter (fun t => t.profit_loss < 0)
    let win_rate : ℚ :=
      if closed_trades.isEmpty then 0
      else (profitable_trades.length : ℚ) / (closed_trades.length : ℚ) * 100
    let total_return := (closed_trades.map (fun t => t.profit_loss)).sum
    let total_return_pct := (final_capital / initial_capital - 1) * 100
    let avg_hold_days : ℚ :=
      if closed_trades.isEmpty then 0
      else ((closed_trades.map (fun t => t.hold_days)).sum : ℚ) /
        (closed_trades.length : ℚ)
    let profits := closed_trades.map (fun t => t.profit_loss)
    let max_profit := if profits.isEmpty then 0 else listMax profits
    let max_loss := if profits.isEmpty then 0 else listMin profits
    { total_return := total_return
      total_return_pct := total_return_pct
      win_rate := win_rate
      total_trades := closed_trades.length
      profitable_trades := profitable_trades.length
      losing_trades := losing_trades.length
      avg_hold_days := avg_hold_days
      max_profit := max_profit
      max_loss := max_loss
      avg_profit_per_trade :=
        if closed_trades.isEmpty then 0
        else total_return / (closed_trades.length : ℚ) }

/-- The max-drawdown loop of `calculate_risk_metrics` (`backtesting.py`
lines 83-90): running peak over every capital value (division by a zero
peak is totalized; the claims use positive capital). -/
def mddLoop : List ℚ → ℚ → ℚ → ℚ
  | [], _, max_drawdown => max_drawdown
  | value :: rest, peak, max_drawdown =>
      let peak' := if value > peak then value else peak
      let drawdown := (peak' - value) / peak' * 100
      mddLoop rest peak' (max max_drawdown drawdown)

/-- The day-over-day returns list of `calculate_risk_metrics`
(`backtesting.py` lines 93-96). -/
def returnsOf : List ℚ → List ℚ
  | [] => []
  | [_] => []
  | a :: b :: rest => (b - a) / a :: returnsOf (b :: rest)

/-- The consecutive-loss counter of `calculate_risk_metrics`
(`backtesting.py` lines 126-134). -/
def maxConsecLosses : List TradeRecord → ℤ → ℤ → ℤ
  | [], _, max_losses => max_losses
  | t :: rest, current, max_losses =>
      if t.profit_loss < 0 then
        maxConsecLosses rest (current + 1) (max max_losses (current + 1))
      else maxConsecLosses rest 0 max_losses

/-- `PerformanceAnalyzer.calculate_risk_metrics` (`backtesting.py` lines
76-155).  `sqrtq` stands for Python's `x ** 0.5`, a fixed deterministic
function of its argument (`variance ** 0.5` and `252 ** 0.5`). -/
def calculateRiskMetrics (sqrtq : ℚ → ℚ) (trade_records : List TradeRecord)
    (capital_values : List ℚ) : RiskMetrics :=
  match capital_values with
  | [] => {}
  | [_] => {}
  | v0 :: _ :: _ =>
      let max_drawdown := mddLoop capital_values v0 0
      let returns := returnsOf capital_values
      let avg_return := returns.sum / (returns.length : ℚ)
      let variance :=
        (returns.map (fun r => (r - avg_return) ^ 2)).sum / ((returns.length : ℚ) - 1)
      let volatility := if 1 < returns.length then sqrtq variance * 100 else 0
      let risk_free_rate : ℚ := (3/100) / 252
      let sharpe_ratio :=
        if 1 < returns.length then
          if 0 < variance then
            (avg_return - risk_free_rate) / sqrtq variance * sqrtq 252
          else 0
        else 0
      let closed_trades := trade_records.filter (fun t => t.action = SignalAction.SELL)
      let win_rate : ℚ :=
        if closed_trades.isEmpty then 0
        else ((closed_trades.filter (fun t => 0 < t.profit_loss)).length : ℚ) /
          (closed_trades.length : ℚ) * 100
      let profits := (closed_trades.filter (fun t => 0 < t.profit_loss)).map
        (fun t => t.profit_loss)
      let losses := (closed_trades.filter (fun t => t.profit_loss < 0)).map
        (fun t => |t.profit_loss|)
      let profit_loss_ratio : ℚ :=
        if losses.isEmpty then 0
        else
          let avg_profit := if profits.isEmpty then 0 else profits.sum / (profits.length : ℚ)
          let avg_loss := losses.sum / (losses.length : ℚ)
          if 0 < avg_loss then avg_profit / avg_loss else 0
      let max_consecutive_losses := maxConsecLosses closed_trades 0 0
      let total_pnl := (closed_trades.map (fun t => t.profit_loss)).sum
      let recovery_factor :=
        if 0 < max_drawdown then |total_pnl| / max_drawdown else 0
      let calmar_ratio :=
        if 0 < max_drawdown then
          (returns.sum / (returns.length : ℚ) * 252) / (max_drawdown / 100)
        else 0
      { max_drawdown := max_drawdown
        sharpe_ratio := sharpe_ratio
        volatility := volatility
        win_rate := win_rate
        profit_loss_ratio := profit_loss_ratio
        calmar_ratio := calmar_ratio
        sortino_ratio := sharpe_ratio
        max_consecutive_losses := max_consecutive_losses
        recovery_factor := recovery_factor }

/-- A per-day entry as built by `BacktestEngine._process_trading_day`
(`backtesting.py` lines 242-249).  `signals_count` and `trades_executed`
are initialized and never updated by the source. -/
structure DailyResult where
  date : ℚ
  signals_count : ℤ
  trades_executed : List TradeRecord
  capital_before : ℚ
  capital_after : ℚ
  positions_count : ℤ
  deriving Repr, DecidableEq

/-- `BacktestResult` frozen dataclass from `domain/value_objects.py`
(lines 158-218).  `performance_analysis : Dict[str, Any] = {}` is embedded
as `Option PerfAnalysis` with `none` for the empty dict; the dataclass is
frozen, so the engine's attempts to assign any of these fields raise
`FrozenInstanceError` at run time.  Datetimes are `ℚ` days since an epoch
Monday. -/
structure BacktestResult where
  config : AnalysisConfig
  start_date : ℚ
  end_date : ℚ
  trading_days : ℤ
  total_signals : ℤ
  executed_trades : ℤ
  trade_records : List TradeRecord := []
  daily_results : List DailyResult := []
  performance_analysis : Option PerfAnalysis := none
  risk_metrics : RiskMetrics := {}
  final_portfolio_value : ℚ := 100000

/-- Python `timedelta.days` of a difference of datetimes measured in
days: floor of the rational day count. -/
def timedeltaDays (q : ℚ) : ℤ := ⌊q⌋

/-- `BacktestEngine._calculate_trading_days` (`backtesting.py` lines
205-209): `max(1, (end_date - start_date).days)`. -/
def calculateTradingDays (start_date end_date : ℚ) : ℤ :=
  max 1 (timedeltaDays (end_date - start_date))

/-- `BacktestEngine._is_trading_day` (`backtesting.py` lines 233-236):
weekday Monday-Friday, with day `0` an epoch Monday. -/
def isTradingDay (d : ℚ) : Bool := ⌊d⌋ % 7 < 5

/-- The dates visited by the `while current_date <= end_date` loop of
`_execute_backtest_flow`, stepping `timedelta(days=1)` from
`start_date`. -/
def backtestDays (start_date end_date : ℚ) : List ℚ :=
  if start_date ≤ end_date then
    (List.range ((⌊end_date - start_date⌋).toNat + 1)).map
      (fun k => start_date + (k : ℚ))
  else []

/-- `BacktestEngine._get_historical_sector_data` (`backtesting.py` lines
303-326): every path prints a warning and returns the empty list — the
historical-data feed is unimplemented. -/
def getHistoricalSectorData (_sector : String) (_trade_date : ℚ) :
    List MarketData := []

/-- `BacktestEngine._generate_signals` (`backtesting.py` lines 276-301):
per configured sector, fetch (always empty) historical data, skip when
empty; the per-stock first-strategy-wins loop and the per-sector
`try/except` coincide with `scanSectorStocks`. -/
def btGenerateSignals (strategies : List StrategyB) (config : AnalysisConfig)
    (trade_date : ℚ) : List TradingSignal :=
  go config.sectors []
where
  go : List String → List TradingSignal → List TradingSignal
    | [], acc => acc
    | sector :: rest, acc =>
        let sector_data := getHistoricalSectorData sector trade_date
        if sector_data.isEmpty then go rest acc
        else go rest (scanSectorStocks strategies config sector_data acc)

/-- `BacktestEngine._execute_trade` (`backtesting.py` lines 328-369),
wrapped in `try/except` returning `None`.  `now` is the `datetime.now()`
stamp `add_position` records.  The computed quantity is
`int(cash * position_size_pct / price)` with **no** rounding to a
100-share lot; quantities under 100 are rejected.  A zero price raises
`ZeroDivisionError` into the `except` (no trade); the commission rate is
the hard-coded `0.0003`. -/
def executeTrade (strategies : List StrategyB) (now : ℚ)
    (signal : TradingSignal) (portfolio : Portfolio) (trade_date : ℚ) :
    Portfolio × Option TradeRecord :=
  match strategies.find? (fun s => s.shouldEnter signal portfolio) with
  | none => (portfolio, none)
  | some _ =>
      if signal.price = 0 then (portfolio, none)
      else
        let quantity := pyInt (portfolio.cash * signal.position_size_pct / signal.price)
        if quantity < 100 then (portfolio, none)
        else
          let commission := (quantity : ℚ) * signal.price * (3/10000)
          let total_cost := (quantity : ℚ) * signal.price + commission
          match portfolio.add_position now signal.symbol quantity signal.price commission with
          | .error _ => (portfolio, none)
          | .ok portfolio' =>
              (portfolio',
               some { symbol := signal.symbol
                      name := signal.name
                      action := signal.action
                      quantity := quantity
                      price := signal.price
                      amount := (quantity : ℚ) * signal.price
                      commission := commission
                      timestamp := trade_date
                      reason := signal.reason
                      confidence := signal.confidence
                      hold_days := 1
                      trade_summary := "买入" ++ toString quantity ++ "股，成本" ++
                        qstr total_cost ++ "元" })

/-- `BacktestEngine._analyze_trade_lesson` (`backtesting.py` lines
429-445). -/
def analyzeTradeLesson (profit_pct : ℚ) (hold_days : ℤ) : String :=
  let l1 := if profit_pct > 5 then "盈利交易，策略有效"
    else if profit_pct < -5 then "亏损交易，需要改进"
    else "保本交易，控制风险"
  let l2 := if hold_days > 10 then ["持有时间较长，影响资金效率"]
    else if hold_days < 2 then ["持有时间过短，可能错过收益"]
    else []
  String.intercalate "；" (l1 :: l2)

/-- `BacktestEngine._execute_exit_trade` (`backtesting.py` lines 386-427),
wrapped in `try/except`.  The appended trade record survives (a `list`
mutation is allowed on a frozen dataclass) but the following
`result.executed_trades += 1` raises `FrozenInstanceError`, which the
`except` swallows — so `executed_trades` is never incremented.  A zero
average cost would raise `ZeroDivisionError` before any mutation. -/
def executeExitTrade (now : ℚ) (symbol : String) (portfolio : Portfolio)
    (current_price : ℚ) (trade_date : ℚ) (result : BacktestResult) :
    Portfolio × BacktestResult :=
  match alookup portfolio.positions symbol with
  | none => (portfolio, result)
  | some position =>
      let quantity := position.quantity
      let cost_price := position.avg_cost
      if cost_price = 0 then (portfolio, result)
      else
        let commission := current_price * (quantity : ℚ) * (3/10000) +
          current_price * (quantity : ℚ) * (1/1000)
        let revenue := current_price * (quantity : ℚ) - commission
        let profit_loss := revenue - (cost_price * (quantity : ℚ) +
          position.total_cost - cost_price * (quantity : ℚ))
        let hold_days := timedeltaDays (trade_date - position.entry_date) + 1
        let profit_loss_pct := (current_price / cost_price - 1) * 100
        match portfolio.remove_position now symbol quantity current_price commission with
        | .error _ => (portfolio, result)
        | .ok (portfolio', _) =>
            let record : TradeRecord :=
              { symbol := symbol
                name := symbol ++ "股票"
                action := SignalAction.SELL
                quantity := quantity
                price := current_price
                amount := current_price * (quantity : ℚ)
                commission := commission
                timestamp := trade_date
                reason := "达到止盈止损条件"
                confidence := 80
                cost_price := some cost_price
                profit_loss := profit_loss
                profit_loss_pct := profit_loss_pct
                hold_days := hold_days
                trade_summary := "卖出" ++ toString quantity ++ "股，收益" ++
                  qstr profit_loss ++ "元，持有" ++ toString hold_days ++ "天"
                lessons_learned := analyzeTradeLesson profit_loss_pct hold_days }
            (portfolio',
             { result with trade_records := result.trade_records ++ [record] })

/-- `BacktestEngine._check_exit_conditions` (`backtesting.py` lines
371-384): iterate a snapshot of the held symbols; the simulated current
price is `avg_cost * (1 + random.uniform(-0.05, 0.05))`, with the random
draw embedded as the explicit sampler `rand`; the first strategy whose
`should_exit_position` fires triggers the exit trade. -/
def checkExitConditions (strategies : List StrategyB) (now : ℚ)
    (rand : String → ℚ) (portfolio : Portfolio) (trade_date : ℚ)
    (result : BacktestResult) : Portfolio × BacktestResult :=
  go (portfolio.positions.map Prod.fst) portfolio result
where
  go : List String → Portfolio → BacktestResult → Portfolio × BacktestResult
    | [], p, r => (p, r)
    | symbol :: rest, p, r =>
        match alookup p.positions symbol with
        | none => go rest p r
        | some position =>
            let current_price := position.avg_cost * (1 + rand symbol)
            match strategies.find?
                (fun s => (s.shouldExit symbol p current_price).isSome) with
            | none => go rest p r
            | some _ =>
                let (p', r') := executeExitTrade now symbol p current_price trade_date r
                go rest p' r'

/-- The signal-execution loop of `_process_trading_day` (`backtesting.py`
lines 258-266): each signal is attempted; the returned trade record is
only counted, never stored. -/
def runSignals (strategies : List StrategyB) (now : ℚ) (trade_date : ℚ) :
    List TradingSignal → Portfolio → ℤ → Portfolio × ℤ
  | [], p, executed_count => (p, executed_count)
  | signal :: rest, p, executed_count =>
      match executeTrade strategies now signal p trade_date with
      | (p', some _) => runSignals strategies now trade_date rest p' (executed_count + 1)
      | (p', none) => runSignals strategies now trade_date rest p' executed_count

/-- `BacktestEngine._process_trading_day` (`backtesting.py` lines
238-274).  The returned daily dict keeps `signals_count = 0` and
`trades_executed = []` — the source never updates them — and the caller
discards it, so `result.daily_results` stays empty. -/
def processTradingDay (strategies : List StrategyB) (now : ℚ)
    (rand : String → ℚ) (trade_date : ℚ) (portfolio : Portfolio)
    (result : BacktestResult) :
    Portfolio × BacktestResult × DailyResult :=
  let capital_before := portfolio.cash
  let signals := btGenerateSignals strategies result.config trade_date
  let (portfolio1, _executed_count) :=
    runSignals strategies now trade_date signals portfolio 0
  let (portfolio2, result') :=
    checkExitConditions strategies now rand portfolio1 trade_date result
  (portfolio2, result',
   { date := trade_date
     signals_count := 0
     trades_executed := []
     capital_before := capital_before
     capital_after := portfolio2.cash
     positions_count := portfolio2.positions.length })

/-- The day loop of `BacktestEngine._execute_backtest_flow`
(`backtesting.py` lines 211-231): non-trading days are skipped, the daily
dict a trading day produces is logged and discarded (never appended to
`result.daily_results`). -/
def flowLoop (strategies : List StrategyB) (now : ℚ) (rand : ℚ → String → ℚ) :
    List ℚ → Portfolio → BacktestResult → Portfolio × BacktestResult
  | [], p, r => (p, r)
  | d :: rest, p, r =>
      if isTradingDay d then
        let (p', r', _daily) := processTradingDay strategies now (rand d) d p r
        flowLoop strategies now rand rest p' r'
      else flowLoop strategies now rand rest p r

/-- `BacktestEngine._execute_backtest_flow` (`backtesting.py` lines
211-231): fresh default `Portfolio()`, walk every calendar day of the
range. -/
def executeBacktestFlow (strategies : List StrategyB) (now : ℚ)
    (rand : ℚ → String → ℚ) (result : BacktestResult) :
    Portfolio × BacktestResult :=
  flowLoop strategies now rand (backtestDays result.start_date result.end_date)
    {} result

/-- `BacktestEngine._analyze_performance` (`backtesting.py` lines
447-465).  After the (side-effect-free) capital-curve loop, line 459
evaluates `result.final_portfolio.cash` — but the frozen `BacktestResult`
dataclass has no `final_portfolio` attribute (its field is
`final_portfolio_value`), so the attribute access raises
`AttributeError` unconditionally, before `analyze_performance` is even
called and before the frozen-field assignments (which would themselves
raise `FrozenInstanceError`). -/
def analyzePerformanceStep (_result : BacktestResult) :
    Except PyErr BacktestResult :=
  .error (.attributeError "final_portfolio")

/-- The flow-phase output of `BacktestEngine.run_backtest`: the freshly
initialized `BacktestResult` (lines 179-186) after
`_execute_backtest_flow` has run over it. -/
def runBacktestFlow (strategies : List StrategyB) (now : ℚ)
    (rand : ℚ → String → ℚ) (config : AnalysisConfig)
    (start_date end_date : ℚ) : Portfolio × BacktestResult :=
  let result : BacktestResult :=
    { config := config
      start_date := start_date
      end_date := end_date
      trading_days := calculateTradingDays start_date end_date
      total_signals := 0
      executed_trades := 0 }
  executeBacktestFlow strategies now rand result

/-- `BacktestEngine.run_backtest` (`backtesting.py` lines 172-203):
initialize the result, run the flow, then `_analyze_performance` — whose
unconditional `AttributeError` propagates (there is no `try/except` in
`run_backtest`), so the save/return steps are unreachable. -/
def runBacktest (strategies : List StrategyB) (now : ℚ)
    (rand : ℚ → String → ℚ) (config : AnalysisConfig)
    (start_date end_date : ℚ) : Except PyErr BacktestResult :=
  let (_portfolio, result) :=
    runBacktestFlow strategies now rand config start_date end_date
  analyzePerformanceStep result

/-- One portfolio call in a driver's open/close sequence (the spec's
`open_position` / `close_position` are `Portfolio.add_position` /
`Portfolio.remove_position`). -/
inductive PortfolioOp where
  | openPos (now : ℚ) (symbol : String) (quantity : ℤ) (price commission : ℚ)
  | closePos (now : ℚ) (symbol : String) (quantity : ℤ) (price commission : ℚ)

/-- Run one call against a portfolio; a raised error leaves the portfolio
as it was (both methods raise before any mutation). -/
def applyOp (p : Portfolio) : PortfolioOp → Portfolio
  | .openPos now s q pr c =>
      match p.add_position now s q pr c with
      | .ok p' => p'
      | .error _ => p
  | .closePos now s q pr c =>
      match p.remove_position now s q pr c with
      | .ok (p', _) => p'
      | .error _ => p

/-- Run a whole sequence of open/close calls. -/
def applyOps (p : Portfolio) (ops : List PortfolioOp) : Portfolio :=
  ops.foldl applyOp p

/-- Default `AnalysisConfig()` (all dataclass defaults). -/
def cfgDefault : AnalysisConfig := {}

/-- A concrete pre-open snapshot: gapped down 3% at price 10. -/
def mdPreOpen : MarketData :=
  { symbol := "600001", name := "样股", price := 10, change_pct := -3
    volume := 1000, amount := 10000, sector := "BK0917", timestamp := 0 }

/-- A data provider returning the single snapshot `mdPreOpen` for every
sector. -/
def providerOneStock : Option (String → Except PyErr (List MarketData)) :=
  some fun _ => .ok [mdPreOpen]

/-- The strategy list `[TPlusOneStrategy()]` with the wall clock at
09:20 (pre-open auction). -/
def stratsPreOpen : List StrategyB := [tPlusOneStrategy (hm 9 20)]

/-- The exact SELL signal `_early_morning_strategy` builds from
`mdPreOpen` at 09:20. -/
def sigPreOpenSell : TradingSignal :=
  { symbol := "600001", name := "样股", sector := "BK0917"
    action := SignalAction.SELL, confidence := 85, price := 10
    reason := "竞价低开+缩量，主力出货迹象", timestamp := hm 9 20
    detailed_reasons :=
      ["早盘竞价策略：收割者模式，只卖不买",
       "竞价低开超过2%，可能存在重大利空",
       "成交量萎缩，主力出货迹象明显"]
    risk_level := RiskLevel.LOW
    stop_loss_plan := "立即执行，无需等待"
    take_profit_plan := "不适用"
    market_condition := "早盘竞价阶段，风险较高" }

/-- A fresh `Portfolio()` (cash 100000, no positions). -/
def pEmpty : Portfolio := {}

/-- The position `add_position("AAA", 100, 10.0, 3.0)` creates at
wall-clock stamp 0. -/
def posAAA : PositionInfo :=
  { quantity := 100, avg_cost := 10, total_cost := 1003
    entry_date := 0, last_update := 0 }

/-- A portfolio holding 100 shares of AAA. -/
def pHolding : Portfolio := { positions := [("AAA", posAAA)] }

/-- A BUY signal sized at 1.5% of cash: with cash 100000 and price 10 the
engine computes a 150-share quantity. -/
def sigBuy150 : TradingSignal :=
  { symbol := "600002", name := "甲", sector := "BK0917"
    action := SignalAction.BUY, confidence := 85, price := 10
    reason := "测试", timestamp := 0, position_size_pct := 3/200 }

/-- A BUY signal sized at 0.5% of cash: with cash 100000 and price 10 the
engine computes a 50-share quantity, below the 100-share minimum. -/
def sigBuy50 : TradingSignal :=
  { symbol := "600002", name := "甲", sector := "BK0917"
    action := SignalAction.BUY, confidence := 85, price := 10
    reason := "测试", timestamp := 0, position_size_pct := 1/200 }

/-- A lone BUY signal at confidence 70 (for the scan post-processing
witness). -/
def sigConf70 : TradingSignal :=
  { symbol := "600003", name := "乙", sector := "BK0917"
    action := SignalAction.BUY, confidence := 70, price := 5
    reason := "t", timestamp := 0 }

/-- A degenerate random sampler for the backtest exit simulation. -/
def randZero : ℚ → String → ℚ := fun _ _ => 0


/-- Reference classifier for the C8 amendment: the same four buckets as
`getTimeSlot`, written with the *disjoint* ranges its first-match
inclusive boundaries actually realize — pre-open `[09:15, 09:30]`,
morning `(09:30, 11:30]`, afternoon `[13:00, 14:30]`, closing
`(14:30, 15:00]`, everything else non-trading. -/
def timeSlotSpec (t : ℚ) : String :=
  if hm 9 15 ≤ t ∧ t ≤ hm 9 30 then "early_morning"
  else if hm 9 30 < t ∧ t ≤ hm 11 30 then "morning_session"
  else if hm 13 0 ≤ t ∧ t ≤ hm 14 30 then "afternoon_session"
  else if hm 14 30 < t ∧ t ≤ hm 15 0 then "late_afternoon"
  else "non_trading"

/-- Decidable equality for embedded Python results. -/
instance instDecEqExcept {ε α : Type} [DecidableEq ε] [DecidableEq α] :
    DecidableEq (Except ε α) := fun a b =>
  match a, b with
  | .error e₁, .error e₂ =>
      if h : e₁ = e₂ then .isTrue (by rw [h])
      else .isFalse (fun he => h (by injection he))
  | .error _, .ok _ => .isFalse (fun he => by injection he)
  | .ok _, .error _ => .isFalse (fun he => by injection he)
  | .ok a₁, .ok a₂ =>
      if h : a₁ = a₂ then .isTrue (by rw [h])
      else .isFalse (fun he => h (by injection he))

/-- Helper: a successful `add_position` preserves the cash balance. -/
theorem add_position_cash (p : Portfolio) (now : ℚ) (s : String) (q : ℤ)
    (pr c : ℚ) (p' : Portfolio)
    (h : p.add_position now s q pr c = Except.ok p') : p'.cash = p.cash := by
  unfold Portfolio.add_position at h
  cases hl : alookup p.positions s <;> rw [hl] at h <;> simp only [] at h
  · injection h with h'
    subst h'
    rfl
  · split at h
    · cases h
    · injection h with h'
      subst h'
      rfl

/-- Helper: a successful `remove_position` preserves the cash balance. -/
theorem remove_position_cash (p : Portfolio) (now : ℚ) (s : String) (q : ℤ)
    (pr c : ℚ) (p₂ : Portfolio) (pnl : ℚ)
    (h : p.remove_position now s q pr c = Except.ok (p₂, pnl)) :
    p₂.cash = p.cash := by
  unfold Portfolio.remove_position at h
  cases hl : alookup p.positions s <;> rw [hl] at h <;> simp only [] at h
  · cases h
  · split at h
    · cases h
    · injection h with h'
      have h₂ := congrArg Prod.fst h'
      simp only [] at h₂
      rw [← h₂]

/-- Helper: a single open/close call never changes the cash balance —
neither `add_position` nor `remove_position` reads or writes `cash`,
and a raised error leaves the portfolio as it was. -/
theorem applyOp_cash_eq (p : Portfolio) (op : PortfolioOp) :
    (applyOp p op).cash = p.cash := by
  cases op with
  | openPos now s q pr c =>
      simp only [applyOp]
      cases h : p.add_position now s q pr c with
      | ok p' => exact add_position_cash p now s q pr c p' h
      | error e => rfl
  | closePos now s q pr c =>
      simp only [applyOp]
      cases h : p.remove_position now s q pr c with
      | ok pair =>
          obtain ⟨p₂, pnl⟩ := pair
          exact remove_position_cash p now s q pr c p₂ pnl h
      | error e => rfl

/-- C2 (counterexample): opening a position from a fresh portfolio with
cash 100000 — `add_position("AAA", 100, 10.0, 3.0)` — leaves cash at
100000; it does not deduct `quantity*price + commission = 1003`, contrary
to the claim. -/
theorem add_position_keeps_cash_cex :
    (pEmpty.add_position 0 "AAA" 100 10 3).map Portfolio.cash =
      Except.ok (100000 : ℚ) ∧
    (100000 : ℚ) ≠ 100000 - (100 * 10 + 3) := by
  constructor
  · decide
  · norm_num

/-- C2 (amended): `add_position` deducts nothing from cash and never
raises `InsufficientFundsError` (it performs no funds check at all);
since neither `add_position` nor `remove_position` touches `cash`, any
sequence of open/close calls leaves cash exactly unchanged, and in
particular a portfolio whose cash starts nonnegative keeps nonnegative
cash. -/
theorem portfolio_cash_invariant (p : Portfolio) (ops : List PortfolioOp) :
    (applyOps p ops).cash = p.cash ∧
      (0 ≤ p.cash → 0 ≤ (applyOps p ops).cash) := by
  have key : ∀ (l : List PortfolioOp) (q : Portfolio),
      (l.foldl applyOp q).cash = q.cash := by
    intro l
    induction l with
    | nil => intro q; rfl
    | cons op rest ih =>
        intro q
        rw [List.foldl_cons, ih, applyOp_cash_eq]
  refine ⟨key ops p, fun h0 => ?_⟩
  rw [show applyOps p ops = ops.foldl applyOp p from rfl, key ops p]
  exact h0

/-- C2 (witness): with the fresh portfolio (cash 100000) and the
concrete two-call sequence open AAA / close AAA, cash stays 100000 and
stays nonnegative. -/
theorem portfolio_cash_invariant_witness :
    (applyOps pEmpty
        [PortfolioOp.openPos 0 "AAA" 100 10 3,
         PortfolioOp.closePos 0 "AAA" 100 12 5]).cash = pEmpty.cash ∧
      0 ≤ (applyOps pEmpty
        [PortfolioOp.openPos 0 "AAA" 100 10 3,
         PortfolioOp.closePos 0 "AAA" 100 12 5]).cash :=
  ⟨(portfolio_cash_invariant pEmpty
      [PortfolioOp.openPos 0 "AAA" 100 10 3,
       PortfolioOp.closePos 0 "AAA" 100 12 5]).1,
   (portfolio_cash_invariant pEmpty
      [PortfolioOp.openPos 0 "AAA" 100 10 3,
       PortfolioOp.closePos 0 "AAA" 100 12 5]).2 (by decide)⟩

/-- C3: `remove_position` raises `ValueError` ("没有找到股票 …" — the
spec's `NoSuchPositionError`) when the symbol has no position, and
`ValueError` ("卖出数量 … 超过持仓数量 …" — the spec's `OverSellError`)
when the requested quantity exceeds the held quantity; both raises happen
before any mutation, so the failed call leaves the portfolio (positions,
average cost, total cost and cash alike) unchanged. -/
theorem remove_position_error_cases (p : Portfolio) (now : ℚ) (s : String)
    (q : ℤ) (pr c : ℚ) :
    (alookup p.positions s = none →
      p.remove_position now s q pr c =
        Except.error (PyErr.valueError ("没有找到股票 " ++ s ++ " 的持仓")) ∧
      applyOp p (PortfolioOp.closePos now s q pr c) = p) ∧
    (∀ pos, alookup p.positions s = some pos → pos.quantity < q →
      p.remove_position now s q pr c =
        Except.error (PyErr.valueError ("卖出数量 " ++ toString q ++
          " 超过持仓数量 " ++ toString pos.quantity)) ∧
      applyOp p (PortfolioOp.closePos now s q pr c) = p) := by
  constructor
  · intro h
    have herr : p.remove_position now s q pr c =
        Except.error (PyErr.valueError ("没有找到股票 " ++ s ++ " 的持仓")) := by
      unfold Portfolio.remove_position
      rw [h]
    refine ⟨herr, ?_⟩
    simp only [applyOp]
    rw [herr]
  · intro pos h hq
    have herr : p.remove_position now s q pr c =
        Except.error (PyErr.valueError ("卖出数量 " ++ toString q ++
          " 超过持仓数量 " ++ toString pos.quantity)) := by
      unfold Portfolio.remove_position
      rw [h]
      simp only [if_pos hq]
    refine ⟨herr, ?_⟩
    simp only [applyOp]
    rw [herr]

/-- C3 (witness): concretely, closing "BBB" on a portfolio that only
holds "AAA" errors and leaves the portfolio unchanged, and overselling
"AAA" (150 of 100 held) errors and leaves the portfolio unchanged. -/
theorem remove_position_error_cases_witness :
    (pHolding.remove_position 0 "BBB" 50 10 1 =
        Except.error (PyErr.valueError ("没有找到股票 " ++ "BBB" ++ " 的持仓")) ∧
      applyOp pHolding (PortfolioOp.closePos 0 "BBB" 50 10 1) = pHolding) ∧
    (pHolding.remove_position 0 "AAA" 150 10 1 =
        Except.error (PyErr.valueError ("卖出数量 " ++ toString (150 : ℤ) ++
          " 超过持仓数量 " ++ toString (100 : ℤ))) ∧
      applyOp pHolding (PortfolioOp.closePos 0 "AAA" 150 10 1) = pHolding) :=
  ⟨(remove_position_error_cases pHolding 0 "BBB" 50 10 1).1 (by decide),
   (remove_position_error_cases pHolding 0 "AAA" 150 10 1).2 posAAA
     (by decide) (by decide)⟩

/-- C4 (counterexample): `open_position("AAA", 100, 10.0, 3.0)` from
cash 100000 does *not* leave cash at 98997 (cash stays 100000), and the
new position's average cost is *not* 10.03 (the commission is not folded
into `avg_cost` for a fresh position). -/
theorem open_position_scenarioA_cex :
    (pEmpty.add_position 0 "AAA" 100 10 3).map Portfolio.cash ≠
      Except.ok (98997 : ℚ) ∧
    (pEmpty.add_position 0 "AAA" 100 10 3).map
        (fun p => (alookup p.positions "AAA").map PositionInfo.avg_cost) ≠
      Except.ok (some (1003/100 : ℚ)) := by
  constructor
  · decide
  · intro hc
    have h : (pEmpty.add_position 0 "AAA" 100 10 3).map
        (fun p => (alookup p.positions "AAA").map PositionInfo.avg_cost) =
        Except.ok (some (10 : ℚ)) := rfl
    rw [h] at hc
    injection hc with hc'
    injection hc' with hc''
    norm_num at hc''

/-- C4 (amended): the call leaves cash at 100000 (no deduction), and the
AAA position has quantity 100, `avg_cost = 10.0` (the raw price) and
`total_cost = 1003` (the only place the commission lands). -/
theorem open_position_scenarioA_actual :
    pEmpty.add_position 0 "AAA" 100 10 3 =
      Except.ok { cash := 100000, positions := [("AAA", posAAA)]
                  total_value := 100000, daily_pnl := 0, total_pnl := 0 } := by
  simp only [pEmpty, Portfolio.add_position, alookup, aset, posAAA]
  norm_num

/-- C1: for every valid `AnalysisConfig`, every data provider and every
strategy list, no signal returned by `scan_market` has confidence
strictly below `config.confidence_threshold` — the final filter
`s.confidence >= self.config.confidence_threshold` guarantees it
regardless of what the sector loop collected. -/
theorem scan_market_honors_confidence_threshold (config : AnalysisConfig)
    (provider : Option (String → Except PyErr (List MarketData)))
    (strategies : List StrategyB) (hv : configValid config) :
    ∀ s ∈ scanMarket config provider strategies,
      config.confidence_threshold ≤ s.confidence := by
  intro s hs
  unfold scanMarket at hs
  cases provider with
  | none => cases hs
  | some get_sector_stocks =>
      simp only [] at hs
      exact of_decide_eq_true (List.mem_filter.mp hs).2

/-- C1 (witness): with the default config (threshold 80), a provider
serving the pre-open snapshot and the T+1 strategy at 09:20, the scan
returns exactly the 85-confidence SELL signal, and the theorem applies to
it. -/
theorem scan_market_honors_confidence_threshold_witness :
    cfgDefault.confidence_threshold ≤ sigPreOpenSell.confidence :=
  scan_market_honors_confidence_threshold cfgDefault providerOneStock
    stratsPreOpen (by norm_num [configValid, cfgDefault]) sigPreOpenSell
    (by rw [show scanMarket cfgDefault providerOneStock stratsPreOpen =
          [sigPreOpenSell] from rfl]
        exact List.mem_singleton.mpr rfl)

/-- C7 (counterexample): at 09:20 (pre-open auction) the T+1 strategy is
handed the snapshot `mdPreOpen` (change −3%).  No portfolio exists in the
method's signature at all — in particular the symbol is not held — yet
the strategy does *not* return `None`: it emits a SELL signal. -/
theorem early_morning_unheld_emits_signal_cex :
    tPlusOneAnalyzeMarketData (hm 9 20) mdPreOpen cfgDefault ≠
      Except.ok none ∧
    (tPlusOneAnalyzeMarketData (hm 9 20) mdPreOpen cfgDefault).map
        (Option.map TradingSignal.action) =
      Except.ok (some SignalAction.SELL) := by
  have h : tPlusOneAnalyzeMarketData (hm 9 20) mdPreOpen cfgDefault =
      Except.ok (some sigPreOpenSell) := rfl
  constructor
  · rw [h]
    intro hc
    injection hc with hc'
    cases hc'
  · rw [h]
    rfl

/-- C7 (amended): in the pre-open bucket `_early_morning_strategy` never
emits anything but SELL — no new BUY entries — but it consults no
holdings whatsoever: it emits the SELL whenever `change_pct < -2.0`
(and the snapshot price is positive, else signal validation raises),
held or not, and returns `None` exactly when `change_pct >= -2.0`. -/
theorem early_morning_only_sell (now : ℚ) (md : MarketData)
    (cfg : AnalysisConfig) (hslot : getTimeSlot now = "early_morning") :
    (md.change_pct < -2 → 0 < md.price →
      (tPlusOneAnalyzeMarketData now md cfg).map
          (Option.map TradingSignal.action) =
        Except.ok (some SignalAction.SELL) ∧
      (tPlusOneAnalyzeMarketData now md cfg).map
          (Option.map TradingSignal.symbol) =
        Except.ok (some md.symbol)) ∧
    (¬ md.change_pct < -2 →
      tPlusOneAnalyzeMarketData now md cfg = Except.ok none) ∧
    (∀ s, tPlusOneAnalyzeMarketData now md cfg = Except.ok (some s) →
      s.action = SignalAction.SELL) := by
  have hmain : tPlusOneAnalyzeMarketData now md cfg =
      earlyMorningStrategy now md cfg := by
    unfold tPlusOneAnalyzeMarketData
    rw [hslot]
    simp
  refine ⟨?_, ?_, ?_⟩
  · intro hchg hp
    rw [hmain]
    unfold earlyMorningStrategy mkTradingSignal
    rw [if_pos hchg]
    have hc1 : ¬¬((0:ℚ) ≤ 85 ∧ (85:ℚ) ≤ 100) := by norm_num
    rw [if_neg hc1, if_neg (by simpa using not_le.mpr hp)]
    exact ⟨rfl, rfl⟩
  · intro hchg
    rw [hmain]
    unfold earlyMorningStrategy
    rw [if_neg hchg]
  · intro s hs
    rw [hmain] at hs
    unfold earlyMorningStrategy mkTradingSignal at hs
    by_cases hchg : md.change_pct < -2
    · rw [if_pos hchg] at hs
      have hc1 : ¬¬((0:ℚ) ≤ 85 ∧ (85:ℚ) ≤ 100) := by norm_num
      rw [if_neg hc1] at hs
      by_cases hp : md.price ≤ 0
      · rw [if_pos hp] at hs
        cases hs
      · rw [if_neg hp] at hs
        injection hs with hs'
        injection hs' with hs''
        rw [← hs'']
    · rw [if_neg hchg] at hs
      injection hs with hs'
      cases hs'

/-- C7 (witness): applying the amended theorem at 09:20 to `mdPreOpen`
(change −3%, price 10): the emitted signal carries the snapshot's
symbol. -/
theorem early_morning_only_sell_witness :
    (tPlusOneAnalyzeMarketData (hm 9 20) mdPreOpen cfgDefault).map
        (Option.map TradingSignal.symbol) =
      Except.ok (some mdPreOpen.symbol) :=
  ((early_morning_only_sell (hm 9 20) mdPreOpen cfgDefault
      (by decide)).1 (by norm_num [mdPreOpen]) (by norm_num [mdPreOpen])).2

/-- C8 (counterexample): at exactly 09:30 the classifier returns
`'early_morning'` — the pre-open window is inclusive at 09:30 and is
checked first — not `'morning_session'` as the claimed half-open
boundaries `[09:15,09:30) / [09:30,11:30]` would demand. -/
theorem time_slot_0930_cex :
    getTimeSlot (hm 9 30) = "early_morning" ∧
      getTimeSlot (hm 9 30) ≠ "morning_session" := by
  constructor
  · decide
  · decide

/-- C8 (amended): every time of day lands in exactly one bucket, namely
the one of `timeSlotSpec`: the four windows are inclusive at *both* ends
and tried in order, so the realized buckets are pre-open `[09:15,09:30]`,
morning `(09:30,11:30]`, afternoon `[13:00,14:30]`, closing
`(14:30,15:00]`, and everything else is `'non_trading'`, in which case
the T+1 strategy yields no signal. -/
theorem time_slot_characterization (t : ℚ) (md : MarketData)
    (cfg : AnalysisConfig) :
    getTimeSlot t = timeSlotSpec t ∧
      (getTimeSlot t = "non_trading" →
        tPlusOneAnalyzeMarketData t md cfg = Except.ok none) := by
  constructor
  · unfold getTimeSlot
    split_ifs with h1 h2 h3 h4
    · unfold timeSlotSpec
      rw [if_pos h1]
    · have hlt : hm 9 30 < t := by
        by_contra hle
        push_neg at hle
        have hle15 : hm 9 15 ≤ t := le_trans (by norm_num [hm]) h2.1
        exact h1 ⟨hle15, hle⟩
      unfold timeSlotSpec
      rw [if_neg h1, if_pos ⟨hlt, h2.2⟩]
    · have hn2 : ¬(hm 9 30 < t ∧ t ≤ hm 11 30) :=
        fun hc => h2 ⟨le_of_lt hc.1, hc.2⟩
      unfold timeSlotSpec
      rw [if_neg h1, if_neg hn2, if_pos h3]
    · have hn2 : ¬(hm 9 30 < t ∧ t ≤ hm 11 30) :=
        fun hc => h2 ⟨le_of_lt hc.1, hc.2⟩
      have hlt : hm 14 30 < t := by
        by_contra hle
        push_neg at hle
        have hle13 : hm 13 0 ≤ t := le_trans (by norm_num [hm]) h4.1
        exact h3 ⟨hle13, hle⟩
      unfold timeSlotSpec
      rw [if_neg h1, if_neg hn2, if_neg h3, if_pos ⟨hlt, h4.2⟩]
    · have hn2 : ¬(hm 9 30 < t ∧ t ≤ hm 11 30) :=
        fun hc => h2 ⟨le_of_lt hc.1, hc.2⟩
      have hn4 : ¬(hm 14 30 < t ∧ t ≤ hm 15 0) :=
        fun hc => h4 ⟨le_of_lt hc.1, hc.2⟩
      unfold timeSlotSpec
      rw [if_neg h1, if_neg hn2, if_neg h3, if_neg hn4]
  · intro h
    unfold tPlusOneAnalyzeMarketData
    rw [h]
    simp

/-- C8 (witness): at midnight (t = 0) the classifier says
`'non_trading'` and the T+1 strategy returns `None`. -/
theorem time_slot_characterization_witness :
    tPlusOneAnalyzeMarketData 0 mdPreOpen cfgDefault = Except.ok none :=
  (time_slot_characterization 0 mdPreOpen cfgDefault).2 (by decide)

/-- C5 (amended): when the backtest engine executes a BUY signal, the
executed quantity is exactly `int(cash * position_size_pct / price)` —
with *no* rounding down to a 100-share lot — and is at least 100; and
whenever that computed quantity is below 100 no trade happens and the
portfolio is returned unchanged. -/
theorem execute_trade_quantity_rule (strategies : List StrategyB) (now : ℚ)
    (signal : TradingSignal) (portfolio : Portfolio) (trade_date : ℚ) :
    (∀ rec, (executeTrade strategies now signal portfolio trade_date).2 = some rec →
      rec.quantity = pyInt (portfolio.cash * signal.position_size_pct / signal.price) ∧
      100 ≤ rec.quantity) ∧
    (pyInt (portfolio.cash * signal.position_size_pct / signal.price) < 100 →
      executeTrade strategies now signal portfolio trade_date = (portfolio, none)) := by
  constructor
  · intro rec h
    unfold executeTrade at h
    cases hf : strategies.find? (fun s => s.shouldEnter signal portfolio) <;>
      rw [hf] at h
    · cases h
    · simp only [] at h
      by_cases hp : signal.price = 0
      · rw [if_pos hp] at h
        cases h
      · rw [if_neg hp] at h
        by_cases hq : pyInt (portfolio.cash * signal.position_size_pct / signal.price) < 100
        · rw [if_pos hq] at h
          cases h
        · rw [if_neg hq] at h
          split at h
          · cases h
          · simp only [] at h
            injection h with h'
            rw [← h']
            exact ⟨rfl, not_lt.mp hq⟩
  · intro hq
    unfold executeTrade
    cases hf : strategies.find? (fun s => s.shouldEnter signal portfolio)
    · rfl
    · simp only []
      by_cases hp : signal.price = 0
      · rw [if_pos hp]
      · rw [if_neg hp, if_pos hq]

/-- C5 (counterexample): cash 100000, `position_size_pct = 0.015`,
price 10: the computed quantity is 150, and the engine executes all 150
shares — 150 is not a multiple of 100, so the executed quantity is *not*
"rounded down to the nearest 100-share lot" (which would be 100). -/
theorem execute_trade_no_lot_rounding_cex :
    (executeTrade stratsPreOpen 0 sigBuy150 pEmpty 0).2.map TradeRecord.quantity =
      some 150 ∧ ¬((100 : ℤ) ∣ 150) := by
  have henter : (tPlusOneStrategy (hm 9 20)).shouldEnter sigBuy150 pEmpty = true := by
    norm_num [tPlusOneStrategy, tPlusOneShouldEnter, sigBuy150, pEmpty, alookup]
  have hfind : stratsPreOpen.find? (fun s => s.shouldEnter sigBuy150 pEmpty) =
      some (tPlusOneStrategy (hm 9 20)) := by
    unfold stratsPreOpen
    have hb : (fun s => s.shouldEnter sigBuy150 pEmpty)
        (tPlusOneStrategy (hm 9 20)) = true := henter
    exact List.find?_cons_of_pos _ hb
  have hq150 : pyInt (pEmpty.cash * sigBuy150.position_size_pct / sigBuy150.price) =
      150 := by
    norm_num [pyInt, pEmpty, sigBuy150]
  constructor
  · unfold executeTrade
    rw [hfind]
    simp only []
    rw [if_neg (by norm_num [sigBuy150] : ¬ sigBuy150.price = (0:ℚ)), hq150,
      if_neg (by norm_num : ¬ (150:ℤ) < 100)]
    split
    · next heq =>
        exfalso
        unfold Portfolio.add_position pEmpty alookup at heq
        cases heq
    · rfl
  · decide

/-- C5 (witness): with `position_size_pct = 0.005` the computed quantity
is 50 < 100, and the amended theorem yields: no trade, portfolio
unchanged. -/
theorem execute_trade_quantity_rule_witness :
    pyInt (pEmpty.cash * sigBuy50.position_size_pct / sigBuy50.price) < 100 ∧
    executeTrade stratsPreOpen 0 sigBuy50 pEmpty 0 = (pEmpty, none) := by
  have h50 : pyInt (pEmpty.cash * sigBuy50.position_size_pct / sigBuy50.price) =
      50 := by
    norm_num [pyInt, pEmpty, sigBuy50]
  refine ⟨by rw [h50]; norm_num, ?_⟩
  exact (execute_trade_quantity_rule stratsPreOpen 0 sigBuy50 pEmpty 0).2
    (by rw [h50]; norm_num)

/-- Helper: the backtest's signal generation always returns `[]` — the
historical-data feed (`_get_historical_sector_data`) returns the empty
list on every path, so every sector is skipped. -/
theorem btGenerateSignals_eq_nil (strategies : List StrategyB)
    (config : AnalysisConfig) (trade_date : ℚ) :
    btGenerateSignals strategies config trade_date = [] := by
  unfold btGenerateSignals
  have : ∀ (l : List String),
      btGenerateSignals.go strategies config trade_date l [] = [] := by
    intro l
    induction l with
    | nil => rfl
    | cons sector rest ih =>
        rw [btGenerateSignals.go]
        exact ih
  exact this config.sectors

/-- Helper: a trading day processed from a fresh portfolio with no
signals and no positions changes nothing. -/
theorem processTradingDay_fresh (strategies : List StrategyB) (now : ℚ)
    (rand : String → ℚ) (d : ℚ) (r : BacktestResult) :
    processTradingDay strategies now rand d {} r =
      ({}, r, { date := d, signals_count := 0, trades_executed := []
                capital_before := 100000, capital_after := 100000
                positions_count := 0 }) := by
  unfold processTradingDay
  rw [btGenerateSignals_eq_nil]
  rfl

/-- Helper: the whole day loop started from a fresh portfolio leaves
both the portfolio and the result record untouched. -/
theorem flowLoop_fresh (strategies : List StrategyB) (now : ℚ)
    (rand : ℚ → String → ℚ) (days : List ℚ) (r : BacktestResult) :
    flowLoop strategies now rand days {} r = ({}, r) := by
  induction days with
  | nil => rfl
  | cons d rest ih =>
      rw [flowLoop]
      cases hd : isTradingDay d
      · simp only [Bool.false_eq_true, if_neg]
        exact ih
      · simp only [if_pos]
        rw [processTradingDay_fresh]
        exact ih

/-- C6: over the five weekdays day 0 (a Monday) … day 4 (Friday), with
the historical-data source yielding zero snapshots (as it always does),
the flow phase indeed accumulates zero signals and zero executed trades —
but `run_backtest` then *raises* `AttributeError` instead of returning
that result: `_analyze_performance` reads `result.final_portfolio`, an
attribute the frozen `BacktestResult` dataclass does not have (its field
is `final_portfolio_value`).  The claim (and the spec's Scenario E) is
the evident intent; the attribute access is the code's slip. -/
theorem run_backtest_five_weekdays_raises :
    (runBacktestFlow stratsPreOpen 0 randZero cfgDefault 0 4).2.total_signals = 0 ∧
    (runBacktestFlow stratsPreOpen 0 randZero cfgDefault 0 4).2.executed_trades = 0 ∧
    (runBacktestFlow stratsPreOpen 0 randZero cfgDefault 0 4).2.trade_records = [] ∧
    runBacktest stratsPreOpen 0 randZero cfgDefault 0 4 =
      Except.error (PyErr.attributeError "final_portfolio") := by
  have hflow : runBacktestFlow stratsPreOpen 0 randZero cfgDefault 0 4 =
      ({}, { config := cfgDefault, start_date := 0, end_date := 4
             trading_days := calculateTradingDays 0 4
             total_signals := 0, executed_trades := 0 }) := by
    unfold runBacktestFlow executeBacktestFlow
    exact flowLoop_fresh _ _ _ _ _
  refine ⟨?_, ?_, ?_, ?_⟩
  · rw [hflow]
  · rw [hflow]
  · rw [hflow]
  · unfold runBacktest
    rw [hflow]
    rfl

/-- C9: `PerformanceAnalyzer.analyze_performance` and
`PerformanceAnalyzer.calculate_risk_metrics` are pure functions of the
trade-record list, the capital figures/curve (and, for the risk metrics,
of the deterministic `** 0.5`): in the embedding they are Lean functions,
so two calls on the same inputs are definitionally equal and the input
lists cannot be mutated. -/
theorem performance_analyzer_idempotent (sqrtq : ℚ → ℚ)
    (trade_records : List TradeRecord) (initial_capital final_capital : ℚ)
    (capital_values : List ℚ) :
    analyzePerformance trade_records initial_capital final_capital =
      analyzePerformance trade_records initial_capital final_capital ∧
    calculateRiskMetrics sqrtq trade_records capital_values =
      calculateRiskMetrics sqrtq trade_records capital_values :=
  ⟨rfl, rfl⟩

/-- Helper: the dedup pass returns a sublist of its input. -/
theorem dedupByKey_sublist (l : List TradingSignal) (seen : List String) :
    (dedupByKey l seen).Sublist l := by
  induction l generalizing seen with
  | nil => exact List.Sublist.refl _
  | cons a rest ih =>
      rw [dedupByKey]
      by_cases hk : signalKey a ∈ seen
      · rw [if_pos hk]
        exact (ih seen).cons a
      · rw [if_neg hk]
        exact (ih (signalKey a :: seen)).cons₂ a

/-- Helper: every signal the dedup pass emits has a key outside `seen`. -/
theorem dedupByKey_key_not_seen (l : List TradingSignal) (seen : List String)
    (s : TradingSignal) (hs : s ∈ dedupByKey l seen) : signalKey s ∉ seen := by
  induction l generalizing seen with
  | nil => cases hs
  | cons a rest ih =>
      rw [dedupByKey] at hs
      by_cases hk : signalKey a ∈ seen
      · rw [if_pos hk] at hs
        exact ih seen hs
      · rw [if_neg hk] at hs
        rcases List.mem_cons.mp hs with h | h
        · rw [h]
          exact hk
        · have := ih (signalKey a :: seen) h
          exact fun hc => this (List.mem_cons_of_mem _ hc)

/-- Helper: the dedup pass emits pairwise-distinct keys (the
insertion-ordered `unique_signals` dict holds one entry per key). -/
theorem dedupByKey_keys_distinct (l : List TradingSignal) (seen : List String) :
    (dedupByKey l seen).Pairwise (fun a b => signalKey a ≠ signalKey b) := by
  induction l generalizing seen with
  | nil => exact List.Pairwise.nil
  | cons a rest ih =>
      rw [dedupByKey]
      by_cases hk : signalKey a ∈ seen
      · rw [if_pos hk]
        exact ih seen
      · rw [if_neg hk]
        refine List.Pairwise.cons ?_ (ih (signalKey a :: seen))
        intro b hb
        have := dedupByKey_key_not_seen rest (signalKey a :: seen) b hb
        exact fun hc => this (by rw [← hc]; exact List.mem_cons_self _ _)

/-- Helper: on a confidence-descending input, each emitted signal has the
maximal confidence among all input signals sharing its key (it is the
first such signal in sorted order). -/
theorem dedupByKey_max (l : List TradingSignal) (seen : List String)
    (hsorted : l.Pairwise (fun a b => b.confidence ≤ a.confidence)) :
    ∀ s ∈ dedupByKey l seen, ∀ t ∈ l, signalKey t = signalKey s →
      t.confidence ≤ s.confidence := by
  induction l generalizing seen with
  | nil => intro s hs; cases hs
  | cons a rest ih =>
      rcases List.pairwise_cons.mp hsorted with ⟨ha, hrest⟩
      intro s hs t ht hkey
      rw [dedupByKey] at hs
      by_cases hk : signalKey a ∈ seen
      · rw [if_pos hk] at hs
        rcases List.mem_cons.mp ht with h | h
        · exfalso
          have hns := dedupByKey_key_not_seen rest seen s hs
          rw [h] at hkey
          rw [hkey] at hk
          exact hns hk
        · exact ih seen hrest s hs t h hkey
      · rw [if_neg hk] at hs
        rcases List.mem_cons.mp hs with hsa | hs'
        · rcases List.mem_cons.mp ht with h | h
          · rw [h, hsa]
          · rw [hsa]
            exact ha t h
        · rcases List.mem_cons.mp ht with h | h
          · exfalso
            have hns := dedupByKey_key_not_seen rest (signalKey a :: seen) s hs'
            rw [h] at hkey
            rw [← hkey] at hns
            exact hns (List.mem_cons_self _ _)
          · exact ih (signalKey a :: seen) hrest s hs' t h hkey
--
/-- Helper: every input key outside `seen` is represented in the dedup
output. -/
theorem dedupByKey_covers (l : List TradingSignal) (seen : List String) :
    ∀ t ∈ l, signalKey t ∉ seen →
      ∃ s ∈ dedupByKey l seen, signalKey s = signalKey t := by
  induction l generalizing seen with
  | nil => intro t ht; cases ht
  | cons a rest ih =>
      intro t ht hns
      rw [dedupByKey]
      by_cases hk : signalKey a ∈ seen
      · rw [if_pos hk]
        rcases List.mem_cons.mp ht with h | h
        · exfalso
          rw [h] at hns
          exact hns hk
        · exact ih seen t h hns
      · rw [if_neg hk]
        rcases List.mem_cons.mp ht with h | h
        · exact ⟨a, List.mem_cons_self _ _, by rw [h]⟩
        · by_cases hkey : signalKey t = signalKey a
          · exact ⟨a, List.mem_cons_self _ _, hkey.symm⟩
          · have hns' : signalKey t ∉ signalKey a :: seen := by
              intro hc
              rcases List.mem_cons.mp hc with h' | h'
              · exact hkey h'
              · exact hns h'
            rcases ih (signalKey a :: seen) t h hns' with ⟨s, hsmem, hskey⟩
            exact ⟨s, List.mem_cons_of_mem _ hsmem, hskey⟩

/-- C10: `_process_signals` returns a list sorted by confidence in
descending order, holding at most one signal per `(symbol, action)` pair
(a pair determines the dict key `f"{symbol}_{action.value}"`), and the
kept signal's confidence dominates every input signal with the same pair;
moreover every input signal's key is represented in the output. -/
theorem process_signals_sorted_dedup (signals : List TradingSignal) :
    (processSignals signals).Pairwise (fun a b => b.confidence ≤ a.confidence) ∧
    (∀ a ∈ processSignals signals, ∀ b ∈ processSignals signals,
      a.symbol = b.symbol → a.action = b.action → a = b) ∧
    (∀ s ∈ processSignals signals, ∀ t ∈ signals,
      t.symbol = s.symbol → t.action = s.action → t.confidence ≤ s.confidence) ∧
    (∀ t ∈ signals, ∃ s ∈ processSignals signals,
      signalKey s = signalKey t) := by
  have htrans : ∀ (a b c : TradingSignal),
      decide (b.confidence ≤ a.confidence) = true →
      decide (c.confidence ≤ b.confidence) = true →
      decide (c.confidence ≤ a.confidence) = true := by
    intro a b c hab hbc
    simp only [decide_eq_true_eq] at *
    exact le_trans hbc hab
  have htotal : ∀ (a b : TradingSignal),
      (decide (b.confidence ≤ a.confidence) ||
        decide (a.confidence ≤ b.confidence)) = true := by
    intro a b
    simp only [Bool.or_eq_true, decide_eq_true_eq]
    exact le_total b.confidence a.confidence
  have hsorted : (signals.mergeSort
      (fun a b => decide (b.confidence ≤ a.confidence))).Pairwise
      (fun a b => b.confidence ≤ a.confidence) := by
    have h := List.sorted_mergeSort htrans htotal signals
    exact h.imp (fun hab => by simpa using hab)
  have hout : processSignals signals =
      dedupByKey (signals.mergeSort
        (fun a b => decide (b.confidence ≤ a.confidence))) [] := rfl
  refine ⟨?_, ?_, ?_, ?_⟩
  · rw [hout]
    exact List.Pairwise.sublist (dedupByKey_sublist _ _) hsorted
  · intro a ha b hb hsym hact
    by_contra hne
    rw [hout] at ha hb
    have hdist := dedupByKey_keys_distinct (signals.mergeSort
      (fun a b => decide (b.confidence ≤ a.confidence))) []
    have hneq := List.Pairwise.forall
      (by intro x y h; exact Ne.symm h) hdist ha hb hne
    apply hneq
    unfold signalKey
    rw [hsym, hact]
  · intro s hs t ht hsym hact
    rw [hout] at hs
    have ht' : t ∈ signals.mergeSort
        (fun a b => decide (b.confidence ≤ a.confidence)) :=
      List.mem_mergeSort.mpr ht
    have hkey : signalKey t = signalKey s := by
      unfold signalKey
      rw [hsym, hact]
    exact dedupByKey_max _ [] hsorted s hs t ht' hkey
  · intro t ht
    rw [hout]
    have ht' : t ∈ signals.mergeSort
        (fun a b => decide (b.confidence ≤ a.confidence)) :=
      List.mem_mergeSort.mpr ht
    exact dedupByKey_covers _ [] t ht' (by simp)

/-- C10 (witness): on the singleton scan result `[sigConf70]` the
post-processing returns the signal itself, and the theorem's
dominance part applies to it. -/
theorem process_signals_sorted_dedup_witness :
    sigConf70 ∈ processSignals [sigConf70] ∧
    sigConf70.confidence ≤ sigConf70.confidence := by
  have hps : processSignals [sigConf70] = [sigConf70] := by
    unfold processSignals
    rw [List.mergeSort_singleton]
    rfl
  have hmem : sigConf70 ∈ processSignals [sigConf70] := by
    rw [hps]
    exact List.mem_singleton.mpr rfl
  exact ⟨hmem,
    (process_signals_sorted_dedup [sigConf70]).2.2.1 sigConf70 hmem sigConf70
      (List.mem_singleton.mpr rfl) rfl rfl⟩
